import Mathlib

/-!
Shallow embedding of the `yao` specMech protocol client
(`src/yao/mech_controller.py` and `src/yao/mech_commands.py`).

Bytes are modelled as `Nat` (Python `bytes` elements, always `< 256`);
byte strings as `List Nat`.  Python functions that can raise are modelled
with `Option`/`Except`, where `none`/`.error` represents the exception
escaping the modelled function.  Regular-expression semantics of the
source (`re.match` with lazy and greedy groups) are spelled out as
explicit shortest/longest-split searches, mirroring the backtracking
behaviour of Python's `re` engine on the concrete patterns used.
-/

namespace Yao

/-- ASCII bytes of a literal string (all protocol text is ASCII). -/
def bs (s : String) : List Nat := s.data.map Char.toNat

/-- Python `str.lower()` on the ASCII strings used by the protocol. -/
def strLower (s : String) : String := ⟨s.data.map Char.toLower⟩

/-- Character class `[0-9]`. -/
def isDigitB (c : Nat) : Bool := 48 ≤ c && c ≤ 57

/-- Character class `[0-9A-Za-z]` (used after `*` in `calculate_checksum`). -/
def isAlnumB (c : Nat) : Bool :=
  (48 ≤ c && c ≤ 57) || (65 ≤ c && c ≤ 90) || (97 ≤ c && c ≤ 122)

/-- Character class `[0-9A-Fa-f]` (used for the checksum field). -/
def isHexB (c : Nat) : Bool :=
  (48 ≤ c && c ≤ 57) || (65 ≤ c && c ≤ 70) || (97 ≤ c && c ≤ 102)

/-- Maximal hex-digit run and remainder (the greedy `[0-9A-Fa-f]+`). -/
def hexSpan : List Nat → List Nat × List Nat
  | [] => ([], [])
  | c :: rest =>
    if isHexB c then
      let ht := hexSpan rest
      (c :: ht.1, ht.2)
    else ([], c :: rest)

/-- Upper-case hexadecimal digit of a value `< 16`, as in Python `"%X"`. -/
def hexChar (d : Nat) : Nat := if d < 10 then 48 + d else 55 + d

/-- Python `f"{n:02X}"` for `n < 256`: exactly two upper-case hex digits. -/
def hex2 (n : Nat) : List Nat := [hexChar (n / 16), hexChar (n % 16)]

/-- XOR of all bytes, as accumulated by the loop in `calculate_checksum`. -/
def xorFold (l : List Nat) : Nat := l.foldl (fun a b => a ^^^ b) 0

namespace SpecMechReply

/-- `^\$?` — the optional leading `$` of the checksum regex. -/
def stripDollar (m : List Nat) : List Nat :=
  match m with
  | c :: rest => if c = 36 then rest else c :: rest
  | [] => []

/-- Matches `(?:[0-9A-Za-z]+)?$` in Python `re` (no DOTALL): an optional
alphanumeric run followed by end-of-string, where `$` also matches just
before a single trailing newline. -/
def alnumOptNl : List Nat → Bool
  | [] => true
  | c :: s => if isAlnumB c then alnumOptNl s else (c == 10 && s.isEmpty)

/-- Matches `(?:\*(?:[0-9A-Za-z]+)?)?$`: the allowed remainders after the
lazily-matched group 1 of the `calculate_checksum` regex. -/
def allowedRest (r : List Nat) : Bool :=
  match r with
  | [] => true
  | c :: s =>
    if c == 10 then s.isEmpty
    else if c == 42 then alnumOptNl s
    else false

/-- The lazy group `(.*?)` of `^\$?(?:(.*?)(?:\*(?:[0-9A-Za-z]+)?)?)$`:
the shortest newline-free prefix whose remainder matches `allowedRest`. -/
def lazySplitCalc : List Nat → Option (List Nat × List Nat)
  | [] => some ([], [])
  | c :: rest =>
    if allowedRest (c :: rest) then some ([], c :: rest)
    else if c == 10 then none
    else
      match lazySplitCalc rest with
      | some (p, r) => some (c :: p, r)
      | none => none

/-- `SpecMechReply.calculate_checksum`: XOR of the bytes between the `$`
and the `*` (delimiters excluded), formatted `"%02X"`.  `none` models the
`ValueError` raised when the regex does not match. -/
def calculate_checksum (message : List Nat) : Option (List Nat) :=
  match lazySplitCalc (stripDollar message) with
  | none => none
  | some (p, _) => some (hex2 (xorFold p))

/-- The remainder test of `^(.+?)\*([0-9A-Fa-f]+)$` (DOTALL): a `*`
followed by a non-empty hex run reaching the end (or a final newline). -/
def checkRestOk (r : List Nat) : Bool :=
  match r with
  | [] => false
  | c :: s =>
    if c == 42 then
      let hs := hexSpan s
      !hs.1.isEmpty && (hs.2.isEmpty || hs.2 == [10])
    else false

/-- The lazy group `(.+?)` of the `check_checksum` regex: shortest
non-empty prefix (any bytes, DOTALL) whose remainder passes `checkRestOk`. -/
def lazySplitD : List Nat → Option (List Nat × List Nat)
  | [] => none
  | c :: rest =>
    if checkRestOk rest then some ([c], rest)
    else
      match lazySplitD rest with
      | some (p, r) => some (c :: p, r)
      | none => none

/-- `SpecMechReply.check_checksum`: parses `data*CHK` and compares `CHK`
with `calculate_checksum(data)`.  `none` models an escaping `ValueError`. -/
def check_checksum (message : List Nat) : Option Bool :=
  match lazySplitD message with
  | none => none
  | some (d, r) =>
    match r with
    | 42 :: s =>
      let h := (hexSpan s).1
      match calculate_checksum d with
      | none => none
      | some chk => some (h == chk)
    | _ => none

end SpecMechReply

/-- `ReplyCode` — reply error codes (`enum.Enum` in the source). -/
inductive ReplyCode where
  | VALID
  | UNPARSABLE_RESPONSE
  | MISMATCHED_COMMAND_ID
  | INVALID_COMMAND_CHECKSUM
  | INVALID_REPLY_CHECKSUM
  | ERR_IN_REPLY
  | CONTROLLER_REBOOTED
  | REBOOT_ACKNOWLEDGED
  | CONNECTION_FAILED
  deriving DecidableEq, Repr

/-- Python `ReplyCode.<member>.name`, used by `check_reply`'s f-string. -/
def ReplyCode.pyName : ReplyCode → String
  | .VALID => "VALID"
  | .UNPARSABLE_RESPONSE => "UNPARSABLE_RESPONSE"
  | .MISMATCHED_COMMAND_ID => "MISMATCHED_COMMAND_ID"
  | .INVALID_COMMAND_CHECKSUM => "INVALID_COMMAND_CHECKSUM"
  | .INVALID_REPLY_CHECKSUM => "INVALID_REPLY_CHECKSUM"
  | .ERR_IN_REPLY => "ERR_IN_REPLY"
  | .CONTROLLER_REBOOTED => "CONTROLLER_REBOOTED"
  | .REBOOT_ACKNOWLEDGED => "REBOOT_ACKNOWLEDGED"
  | .CONNECTION_FAILED => "CONNECTION_FAILED"

/-- The observable result of `SpecMechReply.parse`: the final `code`, the
accumulated `data` (one entry per reply sentence: the decoded tag followed
by the comma-split fields) and the extracted `command_id`. -/
structure ParsedReply where
  code : ReplyCode
  data : List (List (List Nat))
  command_id : Nat
  deriving DecidableEq, Repr

namespace SpecMechReply

/-- The greedy telnet group `(?:\xff.+\xf0)?` of the first `parse` regex:
find the deepest `\xf0` (longest `.+`) whose remainder still lets the rest
of the pattern match (i.e. still contains the terminator `>`). -/
def telnetCutAux : List Nat → Option (List Nat)
  | [] => none
  | c :: tail =>
    match telnetCutAux tail with
    | some b => some b
    | none => if c == 240 && tail.contains 62 then some tail else none

/-- Strip a leading telnet subnegotiation `\xff.+\xf0` if the regex engine
would commit to it; otherwise the raw bytes are used unchanged. -/
def stripTelnet (raw : List Nat) : List Nat :=
  match raw with
  | 255 :: _ :: tail =>
    match telnetCutAux tail with
    | some b => b
    | none => raw
  | _ => raw

/-- The terminator test of `(.*?)\x00?\n?>`: the remainder must start with
`>`, `\x00>`, `\n>` or `\x00\n>`. -/
def termHead : List Nat → Bool
  | 62 :: _ => true
  | 0 :: 62 :: _ => true
  | 10 :: 62 :: _ => true
  | 0 :: 10 :: 62 :: _ => true
  | _ => false

/-- The lazy group `(.*?)` of `(?:\xff.+\xf0)?(.*?)\x00?\n?>` (DOTALL):
shortest prefix whose remainder passes `termHead`. -/
def lazyScanTerm : List Nat → Option (List Nat × List Nat)
  | [] => none
  | c :: rest =>
    if termHead (c :: rest) then some ([], c :: rest)
    else
      match lazyScanTerm rest with
      | some (p, r) => some (c :: p, r)
      | none => none

/-- Smallest split `l = e ++ 13 :: r`: the first `\r` of the lazy `.+?`. -/
def splitAt13 : List Nat → Option (List Nat × List Nat)
  | [] => none
  | 13 :: r => some ([], r)
  | c :: tail =>
    match splitAt13 tail with
    | some (e, r) => some (c :: e, r)
    | none => none

/-- Longest split `s = p ++ 13 :: t` (the greedy `(.+)\r`), `p` possibly
empty; `none` when `s` contains no `\r`. -/
def lastCutAux : List Nat → Option (List Nat)
  | [] => none
  | 13 :: tail =>
    (match lastCutAux tail with
     | some p => some (13 :: p)
     | none => some [])
  | c :: tail =>
    match lastCutAux tail with
    | some p => some (c :: p)
    | none => none

/-- The optional group `(?:\x00?\n(.+)\r)?` of the second `parse` regex:
after the command echo's `\r`, an optional `\x00`, a `\n`, then the
greedy multi-sentence block up to the last `\r`.  `none` means the group
is skipped and the reply is a pure command echo. -/
def repliesPart (r : List Nat) : Option (List Nat) :=
  let s? : Option (List Nat) :=
    match r with
    | 0 :: 10 :: s => some s
    | 10 :: s => some s
    | _ => none
  match s? with
  | none => none
  | some s =>
    match lastCutAux s with
    | some [] => none
    | some p => some p
    | none => none

/-- `re.match(rb"(\$S2CMD.+?)\r(?:\x00?\n(.+)\r)?", data, re.DOTALL)`:
returns the command echo (group 1) and the optional reply block (group 2). -/
def match2Parse (data : List Nat) : Option (List Nat × Option (List Nat)) :=
  if (bs "$S2CMD").isPrefixOf data then
    match splitAt13 (data.drop 6) with
    | none => none
    | some ([], _) => none
    | some (e, r) => some (bs "$S2CMD" ++ e, repliesPart r)
  else none

/-- `int()` value of the maximal digit run when it is non-empty and
followed by `*`; the repeated group `([0-9])+` captures the last digit. -/
def digitsThenStar : List Nat → Option Nat
  | [] => none
  | c :: rest =>
    if isDigitB c then
      match digitsThenStar rest with
      | some d => some d
      | none => if rest.head? == some 42 then some (c - 48) else none
    else none

/-- Scan for the `;` of `re.match(rb".+?;([0-9])+\*", cmd)` past the first
consumed character; stops at a newline (`.` without DOTALL). -/
def cmdIdGo : List Nat → Option Nat
  | [] => none
  | 10 :: _ => none
  | 59 :: rest =>
    (match digitsThenStar rest with
     | some d => some d
     | none => cmdIdGo rest)
  | _ :: rest => cmdIdGo rest

/-- `re.match(rb".+?;([0-9])+\*", cmd)`: the command id echoed after `;`
(the last digit of the run, per the repeated single-digit group). -/
def cmdIdScan : List Nat → Option Nat
  | [] => none
  | c :: rest => if c == 10 then none else cmdIdGo rest

/-- Maximal alphanumeric run and its remainder (greedy `([A-Za-z0-9]+)`). -/
def alnumRun (l : List Nat) : List Nat × List Nat :=
  List.span (fun c => isAlnumB c) l

/-- The remainder test of the lazy `(.+?)` in the sentence regex: a `*`
followed by a non-empty hex run and end-of-string (or final newline). -/
def starHexEnd (r : List Nat) : Bool :=
  match r with
  | 42 :: s =>
    let hs := hexSpan s
    !hs.1.isEmpty && (hs.2.isEmpty || hs.2 == [10])
  | _ => false

/-- Shortest non-empty newline-free prefix whose remainder passes
`starHexEnd` (the lazy data group of the sentence regex, no DOTALL). -/
def lazyDataSplit : List Nat → Option (List Nat × List Nat)
  | [] => none
  | c :: rest =>
    if c == 10 then none
    else if starHexEnd rest then some ([c], rest)
    else
      match lazyDataSplit rest with
      | some (p, r) => some (c :: p, r)
      | none => none

/-- `re.match(rb"^\$S2([A-Za-z0-9]+),(.+?)\*[0-9A-Fa-f]+$", reply)`:
the sentence tag and its raw data pack. -/
def match3Parse (reply : List Nat) : Option (List Nat × List Nat) :=
  match reply with
  | 36 :: 83 :: 50 :: rest =>
    match alnumRun rest with
    | ([], _) => none
    | (tag, r1) =>
      match r1 with
      | 44 :: r2 =>
        match lazyDataSplit r2 with
        | some (d, _) => some (tag, d)
        | none => none
      | _ => none
  | _ => none

/-- `re.split(b"\r\x00\n", replies)`. -/
def splitCRNUL : List Nat → List (List Nat)
  | [] => [[]]
  | 13 :: 0 :: 10 :: rest => [] :: splitCRNUL rest
  | c :: rest =>
    match splitCRNUL rest with
    | h :: t => (c :: h) :: t
    | [] => [[c]]

/-- Python `"a,b".split(",")` on the data pack. -/
def splitComma : List Nat → List (List Nat)
  | [] => [[]]
  | 44 :: rest => [] :: splitComma rest
  | c :: rest =>
    match splitComma rest with
    | h :: t => (c :: h) :: t
    | [] => [[c]]

/-- The `for reply in reply_list` loop of `parse`: checksum check, sentence
regex, `ERR` detection and accumulation into `data`.  Early returns on a
bad checksum or an unparsable sentence keep the data decoded so far;
`none` models the `ValueError` escaping from `check_checksum`. -/
def processReplies (code : ReplyCode) (acc : List (List (List Nat))) :
    List (List Nat) → Option (ReplyCode × List (List (List Nat)))
  | [] => some (code, acc)
  | rep :: rest =>
    match check_checksum rep with
    | none => none
    | some false => some (.INVALID_REPLY_CHECKSUM, acc)
    | some true =>
      match match3Parse rep with
      | none => some (.UNPARSABLE_RESPONSE, acc)
      | some (tag, dp) =>
        let code' := if tag = bs "ERR" then ReplyCode.ERR_IN_REPLY else code
        processReplies code' (acc ++ [tag :: splitComma dp]) rest

/-- `SpecMechReply.parse` (together with the `__init__` defaults):
maps the raw bytes of one interaction to the reply's `code`, `data` and
`command_id`.  `none` models an exception escaping `parse` (the
`ValueError` raised by `check_checksum` on an unparsable checksum field). -/
def parse (raw : List Nat) : Option ParsedReply :=
  if raw.contains 33 then some ⟨.CONTROLLER_REBOOTED, [], 0⟩
  else
    match lazyScanTerm (stripTelnet raw) with
    | none => some ⟨.UNPARSABLE_RESPONSE, [], 0⟩
    | some (data, _) =>
      if data = [] then some ⟨.REBOOT_ACKNOWLEDGED, [], 0⟩
      else
        match match2Parse data with
        | none => some ⟨.UNPARSABLE_RESPONSE, [], 0⟩
        | some (cmd, replies?) =>
          match check_checksum cmd with
          | none => none
          | some false => some ⟨.INVALID_COMMAND_CHECKSUM, [], 0⟩
          | some true =>
            let cid := (cmdIdScan cmd).getD 0
            match replies? with
            | none => some ⟨.VALID, [], cid⟩
            | some replies =>
              match processReplies .VALID [] (splitCRNUL replies) with
              | none => none
              | some (code, dat) => some ⟨code, dat, cid⟩

end SpecMechReply

/-- Python exceptions that cross the boundaries modelled here. -/
inductive PyErr where
  | specMechError (msg : String)
  | valueError
  | indexError
  deriving DecidableEq, Repr

/-- ASCII decoding of protocol bytes interpolated into error f-strings. -/
def decodeStr (l : List Nat) : String := ⟨l.map Char.ofNat⟩

/-- Python `pattern in s` on bytes: contiguous substring test. -/
def isInfixB (p : List Nat) : List Nat → Bool
  | [] => p.isEmpty
  | c :: rest => p.isPrefixOf (c :: rest) || isInfixB p rest

/-- `check_reply(reply)`: `some e` models the raise of exception `e`,
`none` a normal return.  For `ERR_IN_REPLY` the first `reply_data` entry
whose first element contains the substring `"ERR"` is reported; an entry
that is empty raises `IndexError` and an entry of the wrong arity makes
the tuple unpacking raise `ValueError`. -/
def findErr : List (List (List Nat)) → Option PyErr
  | [] => none
  | d :: rest =>
    match d.head? with
    | none => some .indexError
    | some h =>
      if isInfixB (bs "ERR") h then
        match d with
        | [_, c, m] =>
          some (.specMechError
            ("Error " ++ decodeStr c ++ " found in specMech reply: \x27"
              ++ decodeStr m ++ "\x27."))
        | _ => some .valueError
      else findErr rest

/-- `check_reply` from `mech_controller.py`. -/
def check_reply (reply : ParsedReply) : Option PyErr :=
  match (if reply.code = .ERR_IN_REPLY then findErr reply.data else none) with
  | some e => some e
  | none =>
    if reply.code = .CONTROLLER_REBOOTED then
      some (.specMechError
        ("The specMech controller has rebooted. "
          ++ "Acknowledge the reboot before continuing."))
    else if reply.code = .CONNECTION_FAILED then
      some (.specMechError "The connection to the specMech failed. Try reconnecting.")
    else if reply.code ≠ .VALID ∧ reply.code ≠ .REBOOT_ACKNOWLEDGED then
      some (.specMechError
        ("Failed parsing specMech reply: \x27" ++ reply.code.pyName ++ "\x27."))
    else none

/-- The mutable state of a `MechController`: `connected` models the
`reader`/`writer` stream handles being set (they are always assigned and
cleared together), `command_number` and `reboot` the synonymous fields. -/
structure MechState where
  connected : Bool
  command_number : Nat
  reboot : Bool
  deriving DecidableEq, Repr

/-- `MechController.__init__`: no stream, `command_number = 0`,
`reboot = False`. -/
def mechInit : MechState := ⟨false, 0, false⟩

/-- `MechController.start`: opens the connection and assigns the stream
handles.  If opening fails (`ok = false`, the 3-second connect timeout),
the exception propagates before the assignment and the state is
unchanged.  No other attribute is touched. -/
def start (st : MechState) (ok : Bool) : MechState :=
  if ok then { st with connected := true } else st

/-- `MechController.is_connected`. -/
def is_connected (st : MechState) : Bool := st.connected

/-- `MechController.close`: clears the stream handles. -/
def close (st : MechState) : MechState := { st with connected := false }

/-- `MechController.read_data` after the raw bytes of one full reply have
been received: decodes them and updates `self.reboot` from the reply
code.  `none` models an exception escaping `read_data`
(`ConnectionResetError` when no stream is set, or the `ValueError`
propagating out of `SpecMechReply.parse`); the `reboot` flag is then left
untouched, since the exception fires before the assignment. -/
def read_data (st : MechState) (raw : List Nat) : Option (ParsedReply × MechState) :=
  if st.connected then
    match SpecMechReply.parse raw with
    | none => none
    | some rep =>
      some (rep, { st with reboot := rep.code = ReplyCode.CONTROLLER_REBOOTED })
  else none

/-- A sequence of `read_data` calls on the same controller; calls whose
decoding raises leave the state unchanged. -/
def runReads (st : MechState) : List (List Nat) → MechState
  | [] => st
  | raw :: rest =>
    match read_data st raw with
    | some (_, st') => runReads st' rest
    | none => runReads st rest

/-- The I/O outcome of the write/read round of one `send_data` call. -/
inductive IOOutcome where
  | ok (raw : List Nat)
  | reset
  | timeout
  deriving DecidableEq, Repr

/-- Exceptions escaping `send_data` (it catches only
`ConnectionResetError`). -/
inductive PyExc where
  | timeoutError
  | valueError
  deriving DecidableEq, Repr

/-- What one `send_data` call produces for its caller. -/
inductive SendOutput where
  | reply (r : ParsedReply)
  | exc (e : PyExc)
  deriving DecidableEq, Repr

/-- The reply built in the `except ConnectionResetError` branch:
`SpecMechReply(b"")` with its code overwritten to `CONNECTION_FAILED`. -/
def connectionFailedReply : ParsedReply :=
  match SpecMechReply.parse [] with
  | some r => { r with code := .CONNECTION_FAILED }
  | none => ⟨.CONNECTION_FAILED, [], 0⟩

/-- `MechController.send_data`: increments `command_number` (unless the
command is `"!"`), writes, and awaits `read_data` under `wait_for`.
Only `ConnectionResetError` is caught — it yields a `CONNECTION_FAILED`
reply and clears the stream handles.  A `wait_for` timeout raises
`asyncio.TimeoutError`, which is *not* a `ConnectionResetError` and
therefore propagates with the state untouched. -/
def send_data (st : MechState) (command : String) (outcome : IOOutcome) :
    SendOutput × MechState :=
  let st := if command = "!" then st
            else { st with command_number := st.command_number + 1 }
  if st.connected then
    match outcome with
    | .reset => (.reply connectionFailedReply, { st with connected := false })
    | .timeout => (.exc .timeoutError, st)
    | .ok raw =>
      match read_data st raw with
      | none => (.exc .valueError, st)
      | some (rep, st') => (.reply rep, st')
  else
    -- `self.writer is None` raises `ConnectionResetError`, which is caught.
    (.reply connectionFailedReply, { st with connected := false })

/-- `STATS` — stat names accepted by the report command.  The
`"nitrogen": "rn"` entry is commented out in the source. -/
def STATS : List (String × String) :=
  [("time", "rt"), ("version", "rV"), ("environment", "re"), ("vacuum", "rv"),
   ("motors", "rd"), ("motor-a", "ra"), ("motor-b", "rb"), ("motor-c", "rc"),
   ("orientation", "ro"), ("pneumatics", "rp"), ("specmech", "rs")]

/-- `stat in STATS` / `STATS[stat]` lookup. -/
def statsLookup (stat : String) : Option String :=
  (STATS.find? (fun p => p.1 == stat)).map (fun p => p.2)

/-- Python `str(b)[i]` on a field: `values[i]`, raising `IndexError` when
out of range. -/
def field (values : List (List Nat)) (i : Nat) : Except PyErr (List Nat) :=
  match values.get? i with
  | some v => .ok v
  | none => .error .indexError

/-- Digit-run value (`none` when empty or any non-digit). -/
def digitsVal : List Nat → Option Nat
  | [] => none
  | [c] => if isDigitB c then some (c - 48) else none
  | c :: rest =>
    if isDigitB c then
      match digitsVal rest with
      | some n => some ((c - 48) * 10 ^ rest.length + n)
      | none => none
    else none

/-- Python `int(s)` on a protocol field: optional sign then digits. -/
def pyInt? (s : List Nat) : Option Int :=
  match s with
  | 43 :: rest => (digitsVal rest).map (fun n => (n : Int))
  | 45 :: rest => (digitsVal rest).map (fun n => -(n : Int))
  | _ => (digitsVal s).map (fun n => (n : Int))

/-- `int(values[i])`, raising `ValueError` on a malformed field. -/
def pyIntE (s : List Nat) : Except PyErr Int :=
  match pyInt? s with
  | some n => .ok n
  | none => .error .valueError

/-- Exponent part of a Python float literal: empty or `[eE][+-]?digits`. -/
def pyExpOk : List Nat → Bool
  | [] => true
  | c :: rest =>
    if c == 101 || c == 69 then
      match rest with
      | 43 :: d => !d.isEmpty && d.all (fun b => isDigitB b)
      | 45 :: d => !d.isEmpty && d.all (fun b => isDigitB b)
      | d => !d.isEmpty && d.all (fun b => isDigitB b)
    else false

/-- Syntax accepted by Python `float(s)` on a protocol field:
`[+-]? (digits [. digits*] | . digits+) [exponent]`. -/
def pyFloatOk (s : List Nat) : Bool :=
  let body : List Nat :=
    match s with
    | 43 :: rest => rest
    | 45 :: rest => rest
    | _ => s
  let ip := List.span (fun b => isDigitB b) body
  match ip.2 with
  | [] => !ip.1.isEmpty
  | 46 :: r2 =>
    let fp := List.span (fun b => isDigitB b) r2
    (!ip.1.isEmpty || !fp.1.isEmpty) && pyExpOk fp.2
  | r1 => !ip.1.isEmpty && pyExpOk r1

/-- `float(values[i])`: the numeric value is kept as the raw field bytes
(floating point is not modelled); a malformed field raises `ValueError`. -/
def pyFloatE (s : List Nat) : Except PyErr (List Nat) :=
  if pyFloatOk s then .ok s else .error .valueError

/-- `s.upper()` on a byte. -/
def byteUpper (c : Nat) : Nat := if 97 ≤ c && c ≤ 122 then c - 32 else c

/-- `s.upper()` on a field. -/
def listUpper (l : List Nat) : List Nat := l.map byteUpper

/-- Python truthiness of a string (`elif "specmech":` in the source). -/
def pyTruthy (s : List Nat) : Bool := !s.isEmpty

/-- The typed records returned by `get_stat`.  Fields converted with
`float()` in the source are kept as their raw bytes. -/
inductive StatResult where
  | motorOne (mtr : List Nat) (pos speed current : Int) (direction : List Nat)
      (limit : Bool)
  | motors (positions : List Int)
  | env (e0t e0h e1t e1h e2t e2h smt : List Nat)
  | ori (x y z : List Nat)
  | pnu (shutter left right airPressure : String)
  | tim (btm tim stim : List Nat)
  | ver (v : List Nat)
  | vac (red blue : List Nat)
  | ln2 (supply vent redVent blueVent : String)
      (timeNextFill maxValveOpenTime fillInterval pressure : Int)
      (bufferTherm redTherm blueTherm : String)
  | specmech (fan : String) (volts : List Nat)
  deriving DecidableEq, Repr

/-- The LN2 valve-status character map of the `LN2` branch. -/
def valveStatus (c : Nat) : String :=
  if byteUpper c = 67 then "closed"
  else if byteUpper c = 79 then "open"
  else if byteUpper c = 84 then "timeout"
  else if byteUpper c = 88 then "disabled"
  else "?"

/-- The LN2 thermistor-status map of the `LN2` branch. -/
def thermStatus (v : List Nat) : String :=
  if listUpper v = bs "C" then "cold"
  else if listUpper v = bs "H" then "warm"
  else "?"

/-- The `elif "specmech":` branch of `get_stat` (reached whenever no
earlier tag branch applies, because the constant string is truthy). -/
def specmechBranch (values : List (List Nat)) : Except PyErr StatResult := do
  let f2 ← field values 2
  let fanInt ← pyIntE f2
  let f4 ← field values 4
  let volts ← pyFloatE f4
  pure (.specmech (if fanInt ≠ 0 then "on" else "off") volts)

/-- The `PNU` branch of `get_stat`. -/
def pnuBranch (values : List (List Nat)) : Except PyErr StatResult := do
  let v2 ← field values 2
  let pnus := if v2 = bs "c" then "closed"
              else if v2 = bs "o" then "open"
              else "transiting"
  let v4 ← field values 4
  let pnul := if v4 = bs "c" then "closed"
              else if v4 = bs "o" then "open"
              else "transiting"
  let v6 ← field values 6
  let pnur := if v6 = bs "c" then "closed"
              else if v6 = bs "o" then "open"
              else "transiting"
  let v8 ← field values 8
  let pnup := if v8 = bs "0" then "off" else "on"
  pure (.pnu pnus pnul pnur pnup)

/-- The `MTR` branch of `get_stat`. -/
def mtrBranch (stat : String) (data : List (List (List Nat)))
    (values : List (List Nat)) : Except PyErr StatResult :=
  if stat.startsWith "motor-" then do
    let mtr ← field values 2
    let pos ← (field values 3) >>= pyIntE
    let speed ← (field values 5) >>= pyIntE
    let current ← (field values 7) >>= pyIntE
    let direction ← field values 9
    let v11 ← field values 11
    pure (.motorOne mtr pos speed current direction (v11 = bs "Y"))
  else if stat = "motors" then do
    let positions ← data.mapM (fun d => (field d 3) >>= pyIntE)
    pure (.motors positions)
  else .error (.specMechError "Invalid stat for MTR reply.")

/-- The `LN2` branch of `get_stat`. -/
def ln2Branch (values : List (List Nat)) : Except PyErr StatResult := do
  let v2 ← field values 2
  let valves := v2.map valveStatus
  match valves with
  | [s1, s2, s3, s4] => do
    let tnf ← (field values 3) >>= pyIntE
    let mvot ← (field values 5) >>= pyIntE
    let fi ← (field values 7) >>= pyIntE
    let p ← (field values 9) >>= pyIntE
    let t1 ← (field values 11).map thermStatus
    let t2 ← (field values 13).map thermStatus
    let t3 ← (field values 15).map thermStatus
    pure (.ln2 s1 s2 s3 s4 tnf mvot fi p t1 t2 t3)
  | _ => .error .valueError  -- tuple unpacking of a wrong-length list

/-- The tag dispatch of `get_stat` once `values = reply.data[0]` is in
hand.  The final guard of the chain in the source is the constant string
`"specmech"`, so the closing `else` (`Invalid reply sentence`) can only
be reached if that constant were falsy. -/
def decodeStat (stat : String) (reply : ParsedReply)
    (values : List (List Nat)) : Except PyErr StatResult :=
  match values.head? with
  | none => .error .indexError
  | some v0 =>
    if v0 = bs "MTR" then mtrBranch stat reply.data values
    else if v0 = bs "ENV" then do
      let e0t ← (field values 2) >>= pyFloatE
      let e0h ← (field values 4) >>= pyFloatE
      let e1t ← (field values 6) >>= pyFloatE
      let e1h ← (field values 8) >>= pyFloatE
      let e2t ← (field values 10) >>= pyFloatE
      let e2h ← (field values 12) >>= pyFloatE
      let smt ← (field values 14) >>= pyFloatE
      pure (.env e0t e0h e1t e1h e2t e2h smt)
    else if v0 = bs "ORI" then do
      let x ← (field values 2) >>= pyFloatE
      let y ← (field values 3) >>= pyFloatE
      let z ← (field values 4) >>= pyFloatE
      pure (.ori x y z)
    else if v0 = bs "PNU" then pnuBranch values
    else if v0 = bs "TIM" then do
      let tim ← field values 1
      let stim ← field values 2
      let btm ← field values 4
      pure (.tim btm tim stim)
    else if v0 = bs "VER" then do
      let v ← field values 2
      pure (.ver v)
    else if v0 = bs "VAC" then do
      let red ← (field values 2) >>= pyFloatE
      let blue ← (field values 4) >>= pyFloatE
      pure (.vac red blue)
    else if v0 = bs "LN2" then ln2Branch values
    else if pyTruthy (bs "specmech") then specmechBranch values
    else .error (.specMechError
      ("Invalid reply sentence " ++ decodeStr v0 ++ "."))

/-- `MechController.get_stat`, with the transport abstracted: `reply` is
the decoded reply to the issued report command (`STATS[stat]`). -/
def get_stat (stat : String) (reply : ParsedReply) : Except PyErr StatResult :=
  let statL := strLower stat
  match statsLookup statL with
  | none => .error (.specMechError
      ("Invalid specMech stat \x27" ++ statL ++ "\x27."))
  | some _mech_command =>
    match check_reply reply with
    | some e => .error e
    | none =>
      match reply.data.head? with
      | none => .error .indexError
      | some values => decodeStat statL reply values

/-- `status.data[0][k]` in the polling loop of `pneumatic_move`:
`none` models the `IndexError`. -/
def pollFieldAt (status : ParsedReply) (k : Nat) : Option (List Nat) :=
  match status.data.head? with
  | none => none
  | some v => v.get? k

/-- The status field read for a mechanism in the polling loop
(`shutter → 2`, `left → 4`, `right → 6`). -/
def pneuField (mechanism : String) (status : ParsedReply) : Option (List Nat) :=
  if mechanism = "shutter" then pollFieldAt status 2
  else if mechanism = "left" then pollFieldAt status 4
  else pollFieldAt status 6

instance {ε α : Type} [DecidableEq ε] [DecidableEq α] : DecidableEq (Except ε α) := fun a b =>
  match a, b with
  | .error e, .error f =>
    if h : e = f then .isTrue (by rw [h]) else .isFalse (by simp [h])
  | .error _, .ok _ => .isFalse (fun h => Except.noConfusion h)
  | .ok _, .error _ => .isFalse (fun h => Except.noConfusion h)
  | .ok x, .ok y =>
    if h : x = y then .isTrue (by rw [h]) else .isFalse (by simp [h])

/-- Outcome of one iteration of the `for ii in [1, 2]` loop of
`pneumatic_move`: either the call finishes (returns or raises) or the
loop continues, having emitted a warning or not. -/
inductive PneuStep where
  | done (r : Except PyErr Bool)
  | cont (warned : Bool)
  deriving DecidableEq, Repr

/-- One iteration of the polling loop of `pneumatic_move`.  `status` is
the decoded reply to the `"rp"` poll; `hasCommand` models `command` being
passed; `isFirst` distinguishes `ii == 1` from `ii == 2`. -/
def pneuPollOnce (mechanism : String) (opn : Bool) (hasCommand : Bool)
    (status : ParsedReply) (isFirst : Bool) : PneuStep :=
  match check_reply status with
  | some (.specMechError m) =>
    .done (.error (.specMechError
      ("Failed checking the status of the pneumatics after a move: " ++ m)))
  | some e => .done (.error e)
  | none =>
    if mechanism = "shutter" ∨ mechanism = "left" ∨ mechanism = "right" then
      match pneuField mechanism status with
      | none => .done (.error .indexError)
      | some pos =>
        -- `destination[0]` is `"o"` for "open" and `"c"` for "closed".
        let reached := pos = (if opn then bs "o" else bs "c")
        if reached then .done (.ok true)
        else if isFirst then .cont hasCommand
        else .done (.error (.specMechError
          "Pneumatics did not reach the desired position."))
    else .cont false  -- the `else: continue` branch (dead after validation)

/-- `MechController.pneumatic_move`, with the transport abstracted:
`initialReply` is the decoded reply to the open/close command, `polls i`
the decoded reply to the `i`-th `"rp"` status poll.  Returns the result
together with the number of polls performed and of warnings emitted.
The trailing bare `raise SpecMechError` after the loop carries the
default `YaoError` message. -/
def pneumatic_move (mechanism : String) (opn : Bool) (hasCommand : Bool)
    (initialReply : ParsedReply) (polls : Nat → ParsedReply) :
    Except PyErr Bool × Nat × Nat :=
  if mechanism = "left" ∨ mechanism = "right" ∨ mechanism = "shutter" then
    match check_reply initialReply with
    | some e => (.error e, 0, 0)
    | none =>
      match pneuPollOnce mechanism opn hasCommand (polls 0) true with
      | .done r => (r, 1, 0)
      | .cont warned =>
        let w := if warned then 1 else 0
        match pneuPollOnce mechanism opn hasCommand (polls 1) false with
        | .done r => (r, 2, w)
        | .cont _ => (.error (.specMechError "There has been an error"), 2, w)
  else
    (.error (.specMechError
      ("Invalid mechanism \x27" ++ mechanism ++ "\x27.")), 0, 0)

/-- `numpy.int16` wrap-around on assignments and in-place arithmetic of
the `current`/`final` arrays in `move`. -/
def wrap16 (n : Int) : Int := (n + 32768) % 65536 - 32768

/-- The `final` position array computed by `move` from the current
positions, after the `--center` overrides have been applied. -/
def computeFinal (c0 c1 c2 : Int) (position : Int) (motor : Option (Fin 3))
    (absolute : Bool) : Int × Int × Int :=
  match motor with
  | some ax =>
    let v := if absolute then wrap16 position else wrap16 (c0 + position)
    let v1 := if absolute then wrap16 position else wrap16 (c1 + position)
    let v2 := if absolute then wrap16 position else wrap16 (c2 + position)
    if ax = 0 then (v, c1, c2)
    else if ax = 1 then (c0, v1, c2)
    else (c0, c1, v2)
  | none =>
    if absolute then (wrap16 position, wrap16 position, wrap16 position)
    else (wrap16 (c0 + position), wrap16 (c1 + position), wrap16 (c2 + position))

/-- `numpy.any(final < min_range) or numpy.any(final > max_range)`. -/
def outOfRange (f : Int × Int × Int) (lo hi : Int) : Bool :=
  (f.1 < lo || f.2.1 < lo || f.2.2 < lo) || (f.1 > hi || f.2.1 > hi || f.2.2 > hi)

/-- The motor-move wire commands built by `move`. -/
def moveCommands (position : Int) (motor : Option (Fin 3)) (absolute : Bool) :
    List String :=
  match motor with
  | none =>
    if absolute = false then ["md" ++ toString position]
    else ["mA" ++ toString position, "mB" ++ toString position,
          "mC" ++ toString position]
  | some ax =>
    let axc := if ax = 0 then "a" else if ax = 1 then "b" else "c"
    let axC := if ax = 0 then "A" else if ax = 1 then "B" else "C"
    [(if absolute then "m" ++ axC else "m" ++ axc) ++ toString position]

/-- The command-construction and range-check phase of the `move` command
(`mech_commands.py`), entered after the connectivity, motor-status and
DMM prechecks have passed.  `(c0, c1, c2)` are the current positions read
into the `int16` array.  Returns the command outcome paired with the list
of motor-move wire commands actually written to the controller: on any
failure before the send loop (including the out-of-range check) the list
is empty. -/
def movePhase (c0 c1 c2 : Int) (position? : Option Int) (motor : Option (Fin 3))
    (absolute center : Bool) (center_position min_range max_range : Int) :
    Except String (List String) × List String :=
  if absolute = true ∧ motor = none then
    -- Checked on the original flag, before `--center` forces
    -- `absolute = True`.
    (.error "--absolute requires specifying --motor.", [])
  else if center = false ∧ position? = none then
    (.error "POSITION is required except with --center.", [])
  else
    let position? := if center then some center_position else position?
    let absolute := if center then true else absolute
    match position? with
    | none => (.error "POSITION not defined.", [])
    | some position =>
      let mech_commands := moveCommands position motor absolute
      let final := computeFinal c0 c1 c2 position motor absolute
      if outOfRange final min_range max_range then
        (.error "Commanded motor position is out of range.", [])
      else
        (.ok mech_commands, mech_commands)

/-! ### Concrete protocol inputs used by counterexamples and witnesses -/

/-- A pure command-echo reply, `b"$S2CMD,rt;1*0B\r>"`, decoding to `VALID`. -/
def echoRaw : List Nat := bs "$S2CMD,rt;1*0B" ++ [13, 62]

/-- A full reply carrying one sentence with the unknown tag `XYZ`:
`b"$S2CMD,rs;1*0C\r\x00\n$S2XYZ,1,2*39\r>"`. -/
def xyzRaw : List Nat :=
  bs "$S2CMD,rs;1*0C" ++ [13, 0, 10] ++ bs "$S2XYZ,1,2*39" ++ [13, 62]

/-- A decoded `PNU` status reply whose fields all read `t`. -/
def pnuTransitReply : ParsedReply :=
  ⟨.VALID, [[bs "PNU", [], bs "t", [], bs "t", [], bs "t", [], bs "1"]], 1⟩

/-- A decoded reply tagged `FOO` (outside every handled tag). -/
def fooReply : ParsedReply :=
  ⟨.VALID, [[bs "FOO", [], bs "1", [], bs "12.5"]], 1⟩

/-- A `PNU` status reply assembled from arbitrary raw field values,
shaped exactly like the decoder output for an `rp` report. -/
def mkPnuReply (v2 v4 v6 v8 : List Nat) : ParsedReply :=
  ⟨.VALID, [[bs "PNU", [], v2, [], v4, [], v6, [], v8]], 1⟩

/-! ### C2 — error handling in `send_data` -/

/-- Claim C2, counterexample: when the per-call timeout expires,
`send_data` does not yield a `CONNECTION_FAILED` reply and does not drop
the stream — the `asyncio.TimeoutError` escapes (only
`ConnectionResetError` is caught) and `is_connected()` stays true. -/
theorem C2_counterexample :
    (send_data ⟨true, 3, false⟩ "rt" .timeout).1 = .exc .timeoutError ∧
    is_connected (send_data ⟨true, 3, false⟩ "rt" .timeout).2 = true := by
  constructor <;> rfl

/-- Claim C2 (amended): on a read/write `ConnectionResetError` the call
returns a reply with code `CONNECTION_FAILED` and clears the stream
handles, so a subsequent `is_connected()` returns false; but when the
per-call timeout expires the `asyncio.TimeoutError` propagates uncaught
and the stream handles are left in place. -/
theorem C2_amended (st : MechState) (command : String) :
    (send_data st command .reset).1 = .reply connectionFailedReply ∧
    connectionFailedReply.code = .CONNECTION_FAILED ∧
    is_connected (send_data st command .reset).2 = false ∧
    (st.connected = true →
      (send_data st command .timeout).1 = .exc .timeoutError ∧
      is_connected (send_data st command .timeout).2 = true) := by
  refine ⟨?_, rfl, ?_, fun h => ⟨?_, ?_⟩⟩
  · simp only [send_data]
    split <;> split <;> rfl
  · simp only [send_data, is_connected]
    split <;> split <;> rfl
  · simp only [send_data]
    split <;> simp [h]
  · simp only [send_data, is_connected]
    split <;> simp [h]

/-- Claim C2, witness for the amended hypothesis (connected state, timeout). -/
theorem C2_amended_witness :
    (send_data ⟨true, 3, false⟩ "rt" .timeout).1 = .exc .timeoutError ∧
    is_connected (send_data ⟨true, 3, false⟩ "rt" .timeout).2 = true :=
  (C2_amended ⟨true, 3, false⟩ "rt").2.2.2 rfl

/-! ### C3 — what `start()` resets -/

/-- Claim C3, counterexample: a `start()` call on a state with
`command_number = 5` and `reboot = true` leaves both values unchanged,
so `start()` does not reset them to `0`/`false`. -/
theorem C3_counterexample :
    ¬ ((start ⟨false, 5, true⟩ true).command_number = 0 ∧
       (start ⟨false, 5, true⟩ true).reboot = false) := by
  decide

/-- Claim C3 (amended): `start()` only opens the connection; it never
modifies `command_number` or `reboot`.  Those are set to `0`/`false` by
`__init__` alone, so after a reconnect they retain their prior values. -/
theorem C3_amended (st : MechState) (ok : Bool) :
    (start st ok).command_number = st.command_number ∧
    (start st ok).reboot = st.reboot ∧
    mechInit.command_number = 0 ∧ mechInit.reboot = false := by
  unfold start
  split <;> simp [mechInit]

/-! ### C4 — the `nitrogen` stat -/

/-- Claim C4, counterexample: `"nitrogen"` is not in `STATS` (the entry
is commented out in the source), so `get_stat("nitrogen")` raises the
invalid-stat error instead of issuing `rn`. -/
theorem C4_counterexample :
    statsLookup "nitrogen" = none ∧
    get_stat "nitrogen" ⟨.VALID, [], 0⟩ =
      .error (.specMechError "Invalid specMech stat \x27nitrogen\x27.") := by
  constructor <;> rfl

/-- Claim C4 (amended): `"nitrogen"` is not an accepted stat kind: for
every reply, `get_stat("nitrogen")` fails with the invalid-stat
`SpecMechError` before any decoding (its `STATS` entry is commented out),
so the 11-field LN2 record is never produced through it. -/
theorem C4_amended (reply : ParsedReply) :
    get_stat "nitrogen" reply =
      .error (.specMechError "Invalid specMech stat \x27nitrogen\x27.") := by
  rfl

/-! ### C5 — the PNU value mapping -/

/-- The pneumatic-mechanism value map as the code implements it
(amended from the claim: the fallback word is `"transiting"`). -/
def pneuValueMap (v : List Nat) : String :=
  if v = bs "c" then "closed"
  else if v = bs "o" then "open"
  else "transiting"

/-- The air-pressure value map of the `PNU` branch. -/
def airValueMap (v : List Nat) : String :=
  if v = bs "0" then "off" else "on"

/-- Claim C5, counterexample: a mechanism character other than `c`/`o`
is mapped to the word `"transiting"`, not `"transitioning"` as claimed. -/
theorem C5_counterexample :
    get_stat "pneumatics" (mkPnuReply (bs "t") (bs "c") (bs "o") (bs "1")) =
      .ok (.pnu "transiting" "closed" "open" "on") ∧
    "transiting" ≠ "transitioning" := by
  exact ⟨rfl, by decide⟩

/-- Claim C5 (amended): for every PNU status reply the three mechanism
fields are mapped by the total function `c ↦ closed`, `o ↦ open`, any
other value `↦ transiting`, and the air-pressure field by `0 ↦ off`,
anything else `↦ on`. -/
theorem C5_amended (v2 v4 v6 v8 : List Nat) :
    get_stat "pneumatics" (mkPnuReply v2 v4 v6 v8) =
      .ok (.pnu (pneuValueMap v2) (pneuValueMap v4) (pneuValueMap v6)
        (airValueMap v8)) := by
  rfl

/-! ### C7 — pneumatic move polling -/

/-- Claim C7: when the initial command reply is valid but neither status
poll shows the target state, `pneumatic_move` (called with an actor
command attached) performs exactly 2 polls, emits exactly one warning
(after the first failed poll), and raises the transition `SpecMechError`
after the second. -/
theorem C7_theorem (mechanism : String) (opn : Bool)
    (hm : mechanism = "shutter" ∨ mechanism = "left" ∨ mechanism = "right")
    (initialReply : ParsedReply) (h0 : check_reply initialReply = none)
    (polls : Nat → ParsedReply)
    (hp0 : check_reply (polls 0) = none) (hp1 : check_reply (polls 1) = none)
    (v0 v1 : List Nat)
    (hf0 : pneuField mechanism (polls 0) = some v0)
    (hf1 : pneuField mechanism (polls 1) = some v1)
    (hn0 : v0 ≠ (if opn then bs "o" else bs "c"))
    (hn1 : v1 ≠ (if opn then bs "o" else bs "c")) :
    pneumatic_move mechanism opn true initialReply polls =
      (.error (.specMechError "Pneumatics did not reach the desired position."),
        2, 1) := by
  rcases hm with h | h | h <;> subst h <;>
    simp [pneumatic_move, pneuPollOnce, h0, hp0, hp1, hf0, hf1, hn0, hn1]

/-- Claim C7, witness: shutter open, both polls reading `t`. -/
theorem C7_witness :
    pneumatic_move "shutter" true true ⟨.VALID, [], 1⟩ (fun _ => pnuTransitReply) =
      (.error (.specMechError "Pneumatics did not reach the desired position."),
        2, 1) :=
  C7_theorem "shutter" true (Or.inl rfl) ⟨.VALID, [], 1⟩ rfl
    (fun _ => pnuTransitReply) rfl rfl (bs "t") (bs "t") rfl rfl
    (by decide) (by decide)

/-! ### C8 — collimator move range check -/

/-- Claim C8: whenever the computed final position is out of the
configured `[min_microns, max_microns]` range on some axis, the move
command fails with the out-of-range error and no motor-move wire command
is written (the guard runs before the send loop). -/
theorem C8_theorem (c0 c1 c2 : Int) (position? : Option Int)
    (motor : Option (Fin 3)) (absolute center : Bool)
    (center_position min_range max_range : Int)
    (hg : ¬(absolute = true ∧ motor = none))
    (p : Int) (hp : (if center then some center_position else position?) = some p)
    (hout : outOfRange (computeFinal c0 c1 c2 p motor
      (if center then true else absolute)) min_range max_range = true) :
    movePhase c0 c1 c2 position? motor absolute center center_position
        min_range max_range =
      (.error "Commanded motor position is out of range.", []) := by
  have hg2 : ¬(center = false ∧ position? = none) := by
    rintro ⟨hc, hn⟩
    rw [hc] at hp
    simp [hn] at hp
  simp only [movePhase, if_neg hg, if_neg hg2, hp, hout, if_true]

/-- Claim C8, witness (the spec's scenario 5): `min=100`, `max=2900`,
current `(500,500,500)`, absolute move of axis `a` to `3000`. -/
theorem C8_witness :
    movePhase 500 500 500 (some 3000) (some 0) true false 1500 100 2900 =
      (.error "Commanded motor position is out of range.", []) :=
  C8_theorem 500 500 500 (some 3000) (some 0) true false 1500 100 2900
    (by simp) 3000 rfl (by decide)

/-! ### C10 — the truthy `"specmech"` guard -/

/-- Claim C10: the guard of the `specmech` branch in `get_stat` is the
constant (truthy) string `"specmech"`, so every reply whose first
sentence tag is none of the handled tags is decoded by the specmech
branch; the final `Invalid reply sentence` error is unreachable (the
specmech branch itself never produces a `SpecMechError`). -/
theorem C10_theorem (stat : String) (wire : String)
    (hs : statsLookup (strLower stat) = some wire)
    (reply : ParsedReply) (hc : check_reply reply = none)
    (values : List (List Nat)) (hv : reply.data.head? = some values)
    (v0 : List Nat) (h0 : values.head? = some v0)
    (hmtr : v0 ≠ bs "MTR") (henv : v0 ≠ bs "ENV") (hori : v0 ≠ bs "ORI")
    (hpnu : v0 ≠ bs "PNU") (htim : v0 ≠ bs "TIM") (hver : v0 ≠ bs "VER")
    (hvac : v0 ≠ bs "VAC") (hln2 : v0 ≠ bs "LN2") :
    get_stat stat reply = specmechBranch values ∧
    (∀ m : String, specmechBranch values ≠ .error (.specMechError m)) := by
  constructor
  · simp only [get_stat, hs, hc, hv, decodeStat, h0, if_neg hmtr, if_neg henv,
      if_neg hori, if_neg hpnu, if_neg htim, if_neg hver, if_neg hvac,
      if_neg hln2]
    rfl
  · intro m
    simp only [specmechBranch, bind, Except.bind, field, pyIntE, pyFloatE]
    cases h2 : values[2]? with
    | none => simp [h2]
    | some f2 =>
      cases h3 : pyInt? f2 with
      | none => simp [h2, h3]
      | some n =>
        cases h4 : values[4]? with
        | none => simp [h2, h3, h4]
        | some f4 =>
          by_cases h5 : pyFloatOk f4 <;>
            simp [h2, h3, h4, h5, pure, Except.pure]

/-- Claim C10, witness: a `FOO`-tagged reply decoded through
`get_stat("time")` lands in the specmech branch. -/
theorem C10_witness :
    get_stat "time" fooReply = specmechBranch [bs "FOO", [], bs "1", [], bs "12.5"] ∧
    (∀ m : String, specmechBranch [bs "FOO", [], bs "1", [], bs "12.5"] ≠
      .error (.specMechError m)) :=
  C10_theorem "time" "rt" rfl fooReply rfl
    [bs "FOO", [], bs "1", [], bs "12.5"] rfl (bs "FOO") rfl
    (by decide) (by decide) (by decide) (by decide) (by decide) (by decide)
    (by decide) (by decide)

/-! ### C1 — the reboot-pending flag -/

/-- `read_data` succeeding forces a connected state and fully determines
the new state from the decoded reply. -/
lemma read_data_some {st : MechState} {raw : List Nat}
    {pr : ParsedReply × MechState} (h : read_data st raw = some pr) :
    st.connected = true ∧ SpecMechReply.parse raw = some pr.1 ∧
      pr.2 = { st with reboot := decide (pr.1.code = .CONTROLLER_REBOOTED) } := by
  unfold read_data at h
  split at h
  · cases hp : SpecMechReply.parse raw with
    | none => rw [hp] at h; exact absurd h (by simp)
    | some rep =>
      rw [hp] at h
      cases h
      exact ⟨by assumption, rfl, rfl⟩
  · exact absurd h (by simp)

/-- `runReads` never touches the stream handles. -/
lemma runReads_connected (l : List (List Nat)) (st : MechState) :
    (runReads st l).connected = st.connected := by
  induction l generalizing st with
  | nil => rfl
  | cons raw rest ih =>
    cases h : read_data st raw with
    | none =>
      simp only [runReads, h]
      exact ih st
    | some pr =>
      simp only [runReads, h]
      rw [ih pr.2, (read_data_some h).2.2]

/-- `runReads` over a concatenation is sequential composition. -/
lemma runReads_append (l1 l2 : List (List Nat)) (st : MechState) :
    runReads st (l1 ++ l2) = runReads (runReads st l1) l2 := by
  induction l1 generalizing st with
  | nil => rfl
  | cons raw rest ih =>
    cases h : read_data st raw with
    | none =>
      simp only [List.cons_append, runReads, h]
      exact ih st
    | some pr =>
      simp only [List.cons_append, runReads, h]
      exact ih pr.2

/-- Claim C1, counterexample: after a `CONTROLLER_REBOOTED` reply the flag
is true, but a subsequent reply decoding to `VALID` — not a `send("!")`
returning `REBOOT_ACKNOWLEDGED` — clears it. -/
theorem C1_counterexample :
    (runReads ⟨true, 0, false⟩ [[33]]).reboot = true ∧
    (runReads ⟨true, 0, false⟩ [[33], echoRaw]).reboot = false ∧
    (SpecMechReply.parse echoRaw).map ParsedReply.code = some .VALID ∧
    ReplyCode.VALID ≠ .REBOOT_ACKNOWLEDGED := by
  exact ⟨rfl, rfl, rfl, by decide⟩

/-- Claim C1 (amended): `read_data` sets the reboot flag on *every*
decoded reply to whether that reply's code is `CONTROLLER_REBOOTED`:
after any sequence of replies on a connected client, the flag equals the
code test of the last decoded reply, so any non-reboot reply (of any
code, not only a `REBOOT_ACKNOWLEDGED` from `send("!")`) clears it. -/
theorem C1_amended (st : MechState) (hc : st.connected = true)
    (pre : List (List Nat)) (last : List Nat) (rep : ParsedReply)
    (hp : SpecMechReply.parse last = some rep) :
    (runReads st (pre ++ [last])).reboot =
      decide (rep.code = .CONTROLLER_REBOOTED) := by
  rw [runReads_append]
  have hc' : (runReads st pre).connected = true := by
    rw [runReads_connected]; exact hc
  unfold runReads read_data
  rw [hc']
  simp only [if_true, hp]
  rfl

/-- Claim C1, witness: a reboot reply followed by a `VALID` echo reply. -/
theorem C1_amended_witness :
    (runReads ⟨true, 0, false⟩ ([[33]] ++ [echoRaw])).reboot =
      decide ((⟨.VALID, [], 1⟩ : ParsedReply).code = .CONTROLLER_REBOOTED) :=
  C1_amended ⟨true, 0, false⟩ rfl [[33]] echoRaw ⟨.VALID, [], 1⟩ rfl

/-! ### C6 — unknown sentence tags -/

/-- The closed tag set named by the claim. -/
def closedTagSet : List (List Nat) :=
  [bs "CMD", bs "MTR", bs "ENV", bs "ORI", bs "PNU", bs "TIM", bs "VER",
   bs "VAC", bs "LN2", bs "S2", bs "ERR"]

/-- Claim C6, counterexample: a raw reply carrying a sentence tagged
`XYZ` — outside the closed tag set — decodes with code `VALID` (and the
sentence is returned), not `UNPARSABLE`. -/
theorem C6_counterexample :
    SpecMechReply.parse xyzRaw =
      some ⟨.VALID, [[bs "XYZ", bs "1", bs "2"]], 1⟩ ∧
    (bs "XYZ") ∉ closedTagSet ∧
    ReplyCode.VALID ≠ .UNPARSABLE_RESPONSE := by
  exact ⟨rfl, by decide, by decide⟩

/-- Claim C6 (amended): the decoder applies no closed-set check to tags.
A reply sentence with any alphanumeric tag and a valid checksum is
accepted: it is appended to the data and leaves the running code
unchanged (only the exact tag `ERR` changes it, to `ERR_IN_REPLY`);
`UNPARSABLE` arises only from structural mismatch. -/
theorem C6_amended (code : ReplyCode) (acc : List (List (List Nat)))
    (rep : List Nat) (rest : List (List Nat)) (tag dp : List Nat)
    (hchk : SpecMechReply.check_checksum rep = some true)
    (hm : SpecMechReply.match3Parse rep = some (tag, dp))
    (herr : tag ≠ bs "ERR") :
    SpecMechReply.processReplies code acc (rep :: rest) =
      SpecMechReply.processReplies code
        (acc ++ [tag :: SpecMechReply.splitComma dp]) rest := by
  simp only [SpecMechReply.processReplies, hchk, hm, if_neg herr]

/-- Claim C6, witness: the `XYZ` sentence passes through `processReplies`
without changing the `VALID` code. -/
theorem C6_amended_witness :
    SpecMechReply.processReplies .VALID [] [bs "$S2XYZ,1,2*39"] =
      SpecMechReply.processReplies .VALID
        ([] ++ [bs "XYZ" :: SpecMechReply.splitComma (bs "1,2")]) [] :=
  C6_amended .VALID [] (bs "$S2XYZ,1,2*39") [] (bs "XYZ") (bs "1,2")
    rfl rfl (by decide)

/-! ### C9 — checksum generation/verification round trip -/

/-- An upper-case hexadecimal digit (the characters `%02X` can emit). -/
def isUpperHexB (c : Nat) : Bool := (48 ≤ c && c ≤ 57) || (65 ≤ c && c ≤ 70)

lemma allowedRest_cons_false {c : Nat} (s : List Nat)
    (h10 : c ≠ 10) (h42 : c ≠ 42) :
    SpecMechReply.allowedRest (c :: s) = false := by
  have b1 : (c == 10) = false := by simpa using h10
  have b2 : (c == 42) = false := by simpa using h42
  simp [SpecMechReply.allowedRest, b1, b2]

lemma lazySplitCalc_clean (l : List Nat) (h : ∀ c ∈ l, c ≠ 10 ∧ c ≠ 42) :
    SpecMechReply.lazySplitCalc l = some (l, []) := by
  induction l with
  | nil => rfl
  | cons c rest ih =>
    have hc := h c (by simp)
    have b1 : (c == 10) = false := by simpa using hc.1
    simp only [SpecMechReply.lazySplitCalc, allowedRest_cons_false rest hc.1 hc.2,
      Bool.false_eq_true, if_false, b1,
      ih (fun x hx => h x (List.mem_cons_of_mem _ hx))]

lemma hexSpan_all {s : List Nat} (h : ∀ c ∈ s, isHexB c = true) :
    hexSpan s = (s, []) := by
  induction s with
  | nil => rfl
  | cons c rest ih =>
    simp only [hexSpan, h c (by simp), if_true,
      ih (fun x hx => h x (List.mem_cons_of_mem _ hx))]

lemma isUpperHexB_hexChar {d : Nat} (hd : d < 16) :
    isUpperHexB (hexChar d) = true := by
  simp only [hexChar, isUpperHexB]
  split <;> simp <;> omega

lemma isHexB_of_upperHexB {c : Nat} (h : isUpperHexB c = true) :
    isHexB c = true := by
  simp only [isUpperHexB, Bool.or_eq_true, Bool.and_eq_true,
    decide_eq_true_eq] at h
  simp only [isHexB, Bool.or_eq_true, Bool.and_eq_true, decide_eq_true_eq]
  omega

lemma xorFold_lt {l : List Nat} (h : ∀ c ∈ l, c < 256) : xorFold l < 256 := by
  have key : ∀ (l : List Nat) (a : Nat), a < 2 ^ 8 → (∀ c ∈ l, c < 256) →
      l.foldl (fun x y => x ^^^ y) a < 2 ^ 8 := by
    intro l
    induction l with
    | nil => intro a ha _; simpa using ha
    | cons c rest ih =>
      intro a ha hl
      have hc : c < 2 ^ 8 := by simpa using hl c (by simp)
      exact ih (a ^^^ c) (Nat.xor_lt_two_pow ha hc)
        (fun x hx => hl x (List.mem_cons_of_mem _ hx))
  simpa using key l 0 (by norm_num) h

lemma hex2_upperHex {n : Nat} (hn : n < 256) :
    ∀ c ∈ hex2 n, isUpperHexB c = true := by
  intro c hc
  have h1 : n / 16 < 16 := by omega
  have h2 : n % 16 < 16 := Nat.mod_lt _ (by norm_num)
  simp only [hex2, List.mem_cons, List.mem_singleton, List.not_mem_nil,
    or_false] at hc
  rcases hc with h | h <;> rw [h]
  · exact isUpperHexB_hexChar h1
  · exact isUpperHexB_hexChar h2

lemma checkRestOk_cons_ne {x : Nat} (h : x ≠ 42) (l : List Nat) :
    SpecMechReply.checkRestOk (x :: l) = false := by
  have b : (x == 42) = false := by simpa using h
  simp [SpecMechReply.checkRestOk, b]

lemma checkRestOk_star {chk : List Nat} (hne : chk ≠ [])
    (hhex : ∀ c ∈ chk, isHexB c = true) :
    SpecMechReply.checkRestOk (42 :: chk) = true := by
  have he : chk.isEmpty = false := by
    cases chk with
    | nil => exact absurd rfl hne
    | cons _ _ => rfl
  simp [SpecMechReply.checkRestOk, hexSpan_all hhex, he]

lemma lazySplitD_cons (c : Nat) (L : List Nat) :
    SpecMechReply.lazySplitD (c :: L) =
      if SpecMechReply.checkRestOk L then some ([c], L)
      else
        match SpecMechReply.lazySplitD L with
        | some (p, r) => some (c :: p, r)
        | none => none := rfl

lemma lazySplitD_clean (body : List Nat) (chk : List Nat) (hne : body ≠ [])
    (h42 : ∀ c ∈ body, c ≠ 42)
    (hok : SpecMechReply.checkRestOk (42 :: chk) = true) :
    SpecMechReply.lazySplitD (body ++ 42 :: chk) = some (body, 42 :: chk) := by
  induction body with
  | nil => exact absurd rfl hne
  | cons c rest ih =>
    cases rest with
    | nil =>
      rw [List.cons_append, lazySplitD_cons, List.nil_append]
      simp [hok]
    | cons r rest' =>
      have hih := ih (by simp) (fun x hx => h42 x (List.mem_cons_of_mem _ hx))
      have hr : SpecMechReply.checkRestOk ((r :: rest') ++ 42 :: chk) = false :=
        checkRestOk_cons_ne (h42 r (by simp)) _
      simp only [List.cons_append] at hr hih ⊢
      rw [lazySplitD_cons]
      simp only [hr, Bool.false_eq_true, if_false, hih]

/-- Claim C9, counterexample: for the empty body, `check_checksum(body +
"*" + calculate_checksum(body))` does not return true — the `(.+?)`
group needs a non-empty data part, so `check_checksum` raises
`ValueError` (modelled as `none`). -/
theorem C9_counterexample :
    SpecMechReply.check_checksum (([] : List Nat) ++ 42 :: hex2 (xorFold [])) ≠
        some true ∧
    SpecMechReply.check_checksum (([] : List Nat) ++ 42 :: hex2 (xorFold [])) =
      none := by
  exact ⟨by decide, rfl⟩

/-- Claim C9 (amended): for every non-empty byte string `body` that
contains no `*` and no newline byte and does not start with `$`,
`calculate_checksum(body)` equals the XOR of all bytes of `body`
formatted as exactly two upper-case hexadecimal digits, and
`check_checksum(body ++ "*" ++ calculate_checksum(body))` returns true. -/
theorem C9_amended (body : List Nat) (hne : body ≠ [])
    (hb : ∀ c ∈ body, c < 256) (h10 : ∀ c ∈ body, c ≠ 10)
    (h42 : ∀ c ∈ body, c ≠ 42) (hd : body.head? ≠ some 36) :
    SpecMechReply.calculate_checksum body = some (hex2 (xorFold body)) ∧
    (hex2 (xorFold body)).length = 2 ∧
    (∀ c ∈ hex2 (xorFold body), isUpperHexB c = true) ∧
    SpecMechReply.check_checksum (body ++ 42 :: hex2 (xorFold body)) =
      some true := by
  have hstrip : SpecMechReply.stripDollar body = body := by
    cases body with
    | nil => rfl
    | cons c t =>
      have hc : c ≠ 36 := fun h => hd (by rw [h]; rfl)
      simp [SpecMechReply.stripDollar, hc]
  have hcalc : SpecMechReply.calculate_checksum body =
      some (hex2 (xorFold body)) := by
    unfold SpecMechReply.calculate_checksum
    rw [hstrip, lazySplitCalc_clean body (fun c hc => ⟨h10 c hc, h42 c hc⟩)]
  have hlt : xorFold body < 256 := xorFold_lt hb
  have hup : ∀ c ∈ hex2 (xorFold body), isUpperHexB c = true := hex2_upperHex hlt
  have hhex : ∀ c ∈ hex2 (xorFold body), isHexB c = true :=
    fun c hc => isHexB_of_upperHexB (hup c hc)
  have hchkne : hex2 (xorFold body) ≠ [] := by simp [hex2]
  refine ⟨hcalc, rfl, hup, ?_⟩
  unfold SpecMechReply.check_checksum
  rw [lazySplitD_clean body _ hne h42 (checkRestOk_star hchkne hhex)]
  simp [hexSpan_all hhex, hcalc]

/-- Claim C9, witness: the two-byte body `b"AB"`. -/
theorem C9_amended_witness :
    SpecMechReply.calculate_checksum [65, 66] = some (hex2 (xorFold [65, 66])) ∧
    (hex2 (xorFold [65, 66])).length = 2 ∧
    (∀ c ∈ hex2 (xorFold [65, 66]), isUpperHexB c = true) ∧
    SpecMechReply.check_checksum ([65, 66] ++ 42 :: hex2 (xorFold [65, 66])) =
      some true :=
  C9_amended [65, 66] (by decide) (by decide) (by decide) (by decide) (by decide)

end Yao
